import Mathlib

/-!
Shallow embedding of the client-side scripts of Weatherly2.0
(src/static/js/main.js and the minimal-design variant src/unnamed/part_000).

Each browser event handler is translated into a pure Lean function from the
inputs the handler reads (field values, element presence, confirmation
answers, key data) to a record of the observable effects it produces
(whether the default action is prevented, which notifications are emitted,
which styles and attributes are mutated, which navigations and timers are
scheduled).  Element lookups that can fail are modelled with Option, and a
dereference of a missing element is modelled as an Except error, mirroring
the TypeError a null dereference raises in the browser.
-/

namespace Weatherly

/-- A user-facing notification: either a blocking alert dialog
(window.alert) or a transient toast element (showToast message kind). -/
inductive Notif
  | alertBox (msg : String)
  | toast (msg : String) (kind : String)
deriving DecidableEq, Repr

/-- Whitespace as stripped by the JavaScript trim method: space, tab and
line terminators. -/
def isJsSpace (c : Char) : Bool :=
  c = ' ' || c = '\t' || c = '\n' || c = '\r' || c = '\x0b' || c = '\x0c'

/-- The JavaScript String.prototype.trim method: strip whitespace from both
ends of the value. -/
def jsTrim (s : String) : String :=
  ⟨((s.data.dropWhile isJsSpace).reverse.dropWhile isJsSpace).reverse⟩

/-- Observable outcome of one submit event on the add-task form:
whether submission was cancelled, the notifications emitted, whether focus
returned to the task field, and the submit-button mutations. -/
structure SubmitOutcome where
  prevented : Bool
  notifs : List Notif
  focusTask : Bool
  submitDisabled : Bool
  submitLabel : Option String
deriving DecidableEq, Repr

/-- Outcome record of a handler that did nothing yet: submission allowed,
no notification, no focus change, button untouched. -/
def submitStart : SubmitOutcome :=
  { prevented := false, notifs := [], focusTask := false
    submitDisabled := false, submitLabel := none }

/-- The processing label written into the submit button (both scripts). -/
def spinnerLabel : String :=
  "<i class=\"fas fa-spinner fa-spin\"></i> Analyzing..."

/-- Informational toast emitted when submission proceeds (both scripts). -/
def analyzingToast : Notif := .toast "🤖 AI is analyzing your task..." "info"

/-- Warning surfaced by main.js when the trimmed input is too short:
an alert dialog. -/
def warnAlertMain : Notif :=
  .alertBox "⚠️ Please enter a task with at least 3 characters"

/-- Warning surfaced by the minimal script when the trimmed input is too
short: a toast of kind warning. -/
def warnToastMin : Notif := .toast "⚠️ Please enter at least 3 characters" "warning"

/-- Submit handler of main.js (initFormValidation, lines 47 to 64): if the
trimmed value is shorter than 3, cancel the submission, alert, refocus the
field and return; otherwise disable the submit button, replace its label
with a spinner and emit an informational toast. -/
def addTaskSubmitMain (v : String) : SubmitOutcome :=
  if (jsTrim v).length < 3 then
    { submitStart with prevented := true, notifs := [warnAlertMain], focusTask := true }
  else
    { submitStart with
        submitDisabled := true, submitLabel := some spinnerLabel
        notifs := [analyzingToast] }

/-- Submit handler of the minimal script (part_000, lines 63 to 77): same
control flow as main.js but the warning is a toast of kind warning. -/
def addTaskSubmitMin (v : String) : SubmitOutcome :=
  if (jsTrim v).length < 3 then
    { submitStart with prevented := true, notifs := [warnToastMin], focusTask := true }
  else
    { submitStart with
        submitDisabled := true, submitLabel := some spinnerLabel
        notifs := [analyzingToast] }

/-- Positive-feedback hint written by the main.js input listener
(initFormValidation, lines 68 to 80) when the raw value is nonempty;
n is this.value.length, the untrimmed length. -/
def goodHintMain (n : Nat) : String :=
  "<i class=\"fas fa-check-circle text-success\"></i> " ++ toString n
    ++ " characters - Looking good!"

/-- Default prompt written by the main.js input listener when the value is
empty. -/
def defaultHintMain : String :=
  "<i class=\"fas fa-info-circle\"></i> AI will analyze this task against current weather"

/-- Character-counter input listener of main.js: reads the raw value length
and rewrites the hint element accordingly. -/
def charCountHintMain (v : String) : String :=
  if v.length > 0 then goodHintMain v.length else defaultHintMain

/-- Positive-feedback hint of the minimal script (part_000, lines 80 to 94). -/
def goodHintMin (n : Nat) : String :=
  "<i class=\"fas fa-check-circle\"></i> " ++ toString n ++ " characters"

/-- Default prompt of the minimal script. -/
def defaultHintMin : String :=
  "<i class=\"fas fa-info-circle\"></i> AI will analyze this task"

/-- Character-counter input listener of the minimal script: rewrites the
hint text and its color (a pair of innerHTML and style.color). -/
def charCountHintMin (v : String) : String × String :=
  if v.length > 0 then (goodHintMin v.length, "var(--success)")
  else (defaultHintMin, "var(--text-secondary)")

/-! ### Toast lifecycle (showToast, main.js lines 151 to 172, part_000 lines
151 to 168)

showToast creates an element, appends it to the body, and schedules two
timers at call time: one at 100ms adding the show class, one at 3000ms
removing the show class, whose callback schedules a third timer 300ms
later that removes the element from the body.  The timers are modelled as
a queue of (absolute time, action) pairs run in time order by a driver,
and the element as a record of its class state and body membership. -/

/-- The three timer callbacks showToast schedules. -/
inductive ToastAction
  | addShow
  | removeShow
  | removeChild
deriving DecidableEq, Repr

/-- State of one toast element: its constant class and content, whether
the show class is currently present, and whether it is still in the body. -/
structure ToastDom where
  baseClass : String
  innerHTML : String
  showClass : Bool
  inBody : Bool
deriving DecidableEq, Repr

/-- The element as created and appended at call time: class
toast-notification toast-kind, content message, not yet shown. -/
def toastInit (message kind : String) : ToastDom :=
  { baseClass := "toast-notification toast-" ++ kind, innerHTML := message
    showClass := false, inBody := true }

/-- Fire one timer callback at absolute time now: returns the updated
element and any newly scheduled timers.  removeShow schedules removeChild
300ms later, exactly as the nested setTimeout does. -/
def fireToast (now : Nat) (a : ToastAction) (d : ToastDom) :
    ToastDom × List (Nat × ToastAction) :=
  match a with
  | .addShow => ({ d with showClass := true }, [])
  | .removeShow => ({ d with showClass := false }, [(now + 300, .removeChild)])
  | .removeChild => ({ d with inBody := false }, [])

/-- The two timers scheduled directly by showToast, at 100ms and 3000ms
after the call (time 0). -/
def showToastTimers : List (Nat × ToastAction) :=
  [(100, .addShow), (3000, .removeShow)]

/-- Pick the earliest-due timer from the queue, returning it and the rest. -/
def pickEarliest : List (Nat × ToastAction) →
    Option ((Nat × ToastAction) × List (Nat × ToastAction))
  | [] => none
  | t :: ts =>
    match pickEarliest ts with
    | none => some (t, [])
    | some (m, rest) => if t.1 ≤ m.1 then some (t, ts) else some (m, t :: rest)

/-- Run the timer queue in time order, collecting the trace of fired
(time, action) events; fuel bounds the number of firings (three suffice). -/
def runToast : Nat → List (Nat × ToastAction) → ToastDom →
    List (Nat × ToastAction) × ToastDom
  | 0, _, d => ([], d)
  | fuel + 1, timers, d =>
    match pickEarliest timers with
    | none => ([], d)
    | some ((t, a), rest) =>
      let fired := fireToast t a d
      let tail := runToast fuel (rest ++ fired.2) fired.1
      ((t, a) :: tail.1, tail.2)

/-- Full lifecycle trace of one showToast call (times relative to the call). -/
def toastTrace (message kind : String) : List (Nat × ToastAction) :=
  (runToast 4 showToastTimers (toastInit message kind)).1

/-- Final state of the toast element once all its timers have fired. -/
def toastFinal (message kind : String) : ToastDom :=
  (runToast 4 showToastTimers (toastInit message kind)).2

/-- Absolute time at which a given action fires in a trace. -/
def traceTimeOf (a : ToastAction) (tr : List (Nat × ToastAction)) : Option Nat :=
  (tr.find? (fun p => p.2 == a)).map (fun p => p.1)

/-! ### Reveal-on-view (initAnimations, main.js lines 18 to 38, part_000
lines 33 to 54)

An observed element carries its inline opacity and transform and a flag
recording whether the IntersectionObserver is still observing it.  The
observer callback sets opacity 1 and translateY(0) on an intersecting
entry; the source contains no unobserve call, so the flag is never
cleared. -/

/-- One element observed by the IntersectionObserver. -/
structure Observed where
  opacity : String
  transform : String
  observed : Bool
deriving DecidableEq, Repr

/-- Initial state the minimal script gives each animated element before
observing it (part_000 lines 48 to 52): hidden, shifted down, observed. -/
def initialAnimElem : Observed :=
  { opacity := "0", transform := "translateY(30px)", observed := true }

/-- The observer callback applied to one entry: when isIntersecting, reset
opacity and transform; otherwise do nothing.  No unobserve occurs in either
script, so the observed flag is untouched. -/
def revealEntry (isIntersecting : Bool) (el : Observed) : Observed :=
  if isIntersecting then { el with opacity := "1", transform := "translateY(0)" }
  else el

/-- The element state after the revealing branch of the callback has run. -/
def revealedElem : Observed :=
  { opacity := "1", transform := "translateY(0)", observed := true }

/-- Process a sequence of intersection events for one element. -/
def revealRun (events : List Bool) (el : Observed) : Observed :=
  events.foldl (fun s b => revealEntry b s) el

/-! ### classList helpers and the navbar scroll handler (initNavbar,
part_000 lines 17 to 27) -/

/-- classList.add: appends the token unless already present. -/
def classAdd (cs : List String) (c : String) : List String :=
  if cs.contains c then cs else cs ++ [c]

/-- classList.remove: drops the token. -/
def classRemove (cs : List String) (c : String) : List String :=
  cs.filter (fun x => x ≠ c)

/-- The scroll handler initNavbar attaches unconditionally; the navbar
lookup happened once at init time and may have returned null (none), in
which case touching navbar.classList raises a TypeError.  When present,
scrollY above 50 adds the scrolled class, otherwise removes it. -/
def navbarScrollHandlerMin (navbar : Option (List String)) (scrollY : Nat) :
    Except String (List String) :=
  match navbar with
  | none => .error "TypeError: Cannot read properties of null (reading classList)"
  | some cs => .ok (if scrollY > 50 then classAdd cs "scrolled" else classRemove cs "scrolled")

/-- The init-time guard of initFormValidation: the submit listener is
attached only when getElementById finds the addTaskForm element; absence
silently skips the feature. -/
def initFormListenerAttached (taskFormPresent : Bool) : Bool := taskFormPresent

/-- The init-time guard of the character-counter listener (main.js lines 68
to 69, part_000 lines 80 to 81): the input listener is attached only when
getElementById finds the task_name element; absence silently skips it. -/
def initCounterListenerAttached (taskInput : Option String) : Bool :=
  taskInput.isSome

/-- The init-time guard of the location-form listener (initWeatherUpdates,
main.js lines 139 to 144, part_000 lines 139 to 144): the submit listener
emitting the location toast is attached only when getElementById finds the
locationForm element; absence silently skips it. -/
def initLocationListenerAttached (locationForm : Option Unit) : Bool :=
  locationForm.isSome

/-- The submit handler with its inner lookups made explicit: task input and
submit button are fetched inside the handler with no presence check, so a
missing task input faults immediately, and a missing submit button faults
on the proceed path (the blocked path returns before touching it). -/
def addTaskSubmitMainChecked (taskInput : Option String) (submitBtnPresent : Bool) :
    Except String SubmitOutcome :=
  match taskInput with
  | none => .error "TypeError: Cannot read properties of null (reading value)"
  | some v =>
    if (jsTrim v).length < 3 then .ok (addTaskSubmitMain v)
    else if submitBtnPresent then .ok (addTaskSubmitMain v)
    else .error "TypeError: Cannot set properties of null (setting disabled)"

/-- The guarded weather-card init of the minimal script (part_000 lines 134
to 137): when the card is present set its animation style, otherwise skip. -/
def initWeatherCardMin (card : Option String) : Option String :=
  card.map (fun _ => "fadeIn 0.8s ease")

/-- The guarded weather-card init of main.js (lines 133 to 136): when the
card is present add the weather-loaded class, otherwise skip. -/
def initWeatherCardMain (card : Option (List String)) : Option (List String) :=
  card.map (fun cs => classAdd cs "weather-loaded")

/-! ### Delete-link confirmation (initTaskInteractions, main.js lines 111
to 124, part_000 lines 113 to 126) -/

/-- Observable outcome of one click on a delete link: whether default
navigation was prevented, the notifications emitted, and the navigation
scheduled (delay in ms paired with the target href), if any. -/
structure DeleteOutcome where
  prevented : Bool
  notifs : List Notif
  scheduledNav : Option (Nat × String)
deriving DecidableEq, Repr

/-- Toast emitted by main.js after a confirmed delete. -/
def deleteToastMain : Notif := .toast "🗑️ Task deleted!" "info"

/-- Toast emitted by the minimal script after a confirmed delete. -/
def deleteToastMin : Notif := .toast "🗑️ Task deleted" "info"

/-- Delete-link click handler of main.js: preventDefault first, then if the
user confirms, emit the toast and schedule the original navigation 500ms
later; if declined, nothing further. -/
def deleteClickMain (confirmed : Bool) (href : String) : DeleteOutcome :=
  { prevented := true
    notifs := if confirmed then [deleteToastMain] else []
    scheduledNav := if confirmed then some (500, href) else none }

/-- Delete-link click handler of the minimal script: identical control
flow, different toast text. -/
def deleteClickMin (confirmed : Bool) (href : String) : DeleteOutcome :=
  { prevented := true
    notifs := if confirmed then [deleteToastMin] else []
    scheduledNav := if confirmed then some (500, href) else none }

/-! ### Keyboard shortcut (document keydown listener, main.js lines 175 to
185, part_000 lines 174 to 183) -/

/-- Observable outcome of one keydown event: whether default handling was
suppressed, whether the task field was focused, and the toasts emitted. -/
structure KeyOutcome where
  prevented : Bool
  focusedTask : Bool
  notifs : List Notif
deriving DecidableEq, Repr

/-- The outcome in which the handler did nothing at all. -/
def noopKeyOutcome : KeyOutcome :=
  { prevented := false, focusedTask := false, notifs := [] }

/-- Toast emitted by the main.js shortcut. -/
def quickAddToastMain : Notif := .toast "✨ Quick add task!" "info"

/-- Toast emitted by the minimal-script shortcut. -/
def quickAddToastMin : Notif := .toast "✨ Quick add task" "info"

/-- keydown handler of main.js: on (ctrlKey or metaKey) together with key
k, preventDefault unconditionally, then focus the task field and emit the
toast only when the field is present. -/
def keydownMain (ctrlKey metaKey : Bool) (key : String) (taskFieldPresent : Bool) :
    KeyOutcome :=
  if (ctrlKey || metaKey) && key == "k" then
    { prevented := true
      focusedTask := taskFieldPresent
      notifs := if taskFieldPresent then [quickAddToastMain] else [] }
  else noopKeyOutcome

/-- keydown handler of the minimal script: identical control flow,
different toast text. -/
def keydownMin (ctrlKey metaKey : Bool) (key : String) (taskFieldPresent : Bool) :
    KeyOutcome :=
  if (ctrlKey || metaKey) && key == "k" then
    { prevented := true
      focusedTask := taskFieldPresent
      notifs := if taskFieldPresent then [quickAddToastMin] else [] }
  else noopKeyOutcome

/-! ### showToast as a body mutation (frame effect) -/

/-- A toast element as it sits in the body: its class string and content. -/
structure ToastElem where
  className : String
  innerHTML : String
deriving DecidableEq, Repr

/-- The element showToast creates: className toast-notification toast-kind,
innerHTML the message. -/
def mkToastElem (message kind : String) : ToastElem :=
  { className := "toast-notification toast-" ++ kind, innerHTML := message }

/-- The immediate effect of showToast on the body: document.createElement
followed by document.body.appendChild, i.e. append one fresh element after
all existing children.  No existing element is read or written. -/
def showToastInsert (body : List ToastElem) (message kind : String) : List ToastElem :=
  body ++ [mkToastElem message kind]

/-! ### Task-item interactions (initTaskInteractions, main.js lines 87 to
108, part_000 lines 101 to 111) -/

/-- Inline style of one task list item. -/
structure TaskStyle where
  transform : String
  opacity : String
  transition : String
deriving DecidableEq, Repr

/-- mouseenter handler of main.js: lateral offset of 5px. -/
def taskHoverEnterMain (s : TaskStyle) : TaskStyle :=
  { s with transform := "translateX(5px)" }

/-- mouseleave handler of main.js: transform back to translateX(0). -/
def taskHoverLeaveMain (s : TaskStyle) : TaskStyle :=
  { s with transform := "translateX(0)" }

/-- mouseenter handler of the minimal script: lateral offset of 8px. -/
def taskHoverEnterMin (s : TaskStyle) : TaskStyle :=
  { s with transform := "translateX(8px)" }

/-- mouseleave handler of the minimal script: transform back to
translateX(0). -/
def taskHoverLeaveMin (s : TaskStyle) : TaskStyle :=
  { s with transform := "translateX(0)" }

/-- The events main.js attaches to a task item or its child links:
hover enter and leave on the item, a click on the task-toggle link, and a
click on the delete link (with the confirmation answer). -/
inductive TaskEvent
  | hoverEnter
  | hoverLeave
  | toggleClick
  | deleteClick (confirmed : Bool)
deriving DecidableEq, Repr

/-- Effect of each main.js task-item event on the inline style of the
enclosing task item.  The toggle click (lines 101 to 108) sets a
transition and opacity 0.5; the delete handler never touches the style. -/
def taskEventStepMain : TaskEvent → TaskStyle → TaskStyle
  | .hoverEnter, s => taskHoverEnterMain s
  | .hoverLeave, s => taskHoverLeaveMain s
  | .toggleClick, s => { s with transition := "all 0.3s ease", opacity := "0.5" }
  | .deleteClick _, s => s

/-- Which main.js task-item events call preventDefault: only the delete
click does; the toggle click lets its link navigate. -/
def taskEventPreventsMain : TaskEvent → Bool
  | .deleteClick _ => true
  | _ => false

/-- Run a sequence of task-item events from a starting style. -/
def taskEventsRun (evs : List TaskEvent) (s : TaskStyle) : TaskStyle :=
  evs.foldl (fun st ev => taskEventStepMain ev st) s

/-! ## Helper lemmas -/

/-- A revealed element is a fixed point of the observer callback. -/
theorem revealEntry_fixed (b : Bool) : revealEntry b revealedElem = revealedElem := by
  cases b <;> rfl

/-- A revealed element stays revealed under any further intersection
events. -/
theorem revealRun_fixed (es : List Bool) : revealRun es revealedElem = revealedElem := by
  induction es with
  | nil => rfl
  | cons b es ih =>
    simp only [revealRun, List.foldl_cons] at ih ⊢
    rw [revealEntry_fixed b]
    exact ih

/-- Opacity 0.5 is preserved by every task-item event of main.js. -/
theorem taskEventsRun_keeps_opacity (evs : List TaskEvent) :
    ∀ s : TaskStyle, s.opacity = "0.5" → (taskEventsRun evs s).opacity = "0.5" := by
  induction evs with
  | nil => intro s h; exact h
  | cons ev evs ih =>
    intro s h
    simp only [taskEventsRun, List.foldl_cons]
    apply ih
    cases ev <;> simp [taskEventStepMain, taskHoverEnterMain, taskHoverLeaveMain, h]

/-! ## Claim theorems -/

/-- Claim C1: for every submission of the add-task form, a trimmed value of
length below 3 cancels the submission, surfaces a warning (an alert in
main.js, a warning toast in the minimal script) and refocuses the field,
while a trimmed length of at least 3 lets the submission proceed, disables
the submit control, replaces its label with the spinner indicator and
emits the informational toast. -/
theorem addTask_minLength_validation (v : String) :
    ((addTaskSubmitMain v).prevented = true ↔ (jsTrim v).length < 3)
  ∧ ((addTaskSubmitMain v).notifs = [warnAlertMain] ↔ (jsTrim v).length < 3)
  ∧ ((addTaskSubmitMain v).focusTask = true ↔ (jsTrim v).length < 3)
  ∧ ((addTaskSubmitMain v).submitDisabled = true ↔ 3 ≤ (jsTrim v).length)
  ∧ ((addTaskSubmitMain v).submitLabel = some spinnerLabel ↔ 3 ≤ (jsTrim v).length)
  ∧ ((addTaskSubmitMain v).notifs = [analyzingToast] ↔ 3 ≤ (jsTrim v).length)
  ∧ ((addTaskSubmitMin v).prevented = true ↔ (jsTrim v).length < 3)
  ∧ ((addTaskSubmitMin v).notifs = [warnToastMin] ↔ (jsTrim v).length < 3)
  ∧ ((addTaskSubmitMin v).focusTask = true ↔ (jsTrim v).length < 3)
  ∧ ((addTaskSubmitMin v).submitDisabled = true ↔ 3 ≤ (jsTrim v).length)
  ∧ ((addTaskSubmitMin v).notifs = [analyzingToast] ↔ 3 ≤ (jsTrim v).length) := by
  by_cases h : (jsTrim v).length < 3
  · have h2 : ¬ 3 ≤ (jsTrim v).length := by omega
    simp [addTaskSubmitMain, addTaskSubmitMin, submitStart, h, h2,
      warnAlertMain, warnToastMin, analyzingToast]
  · have h2 : 3 ≤ (jsTrim v).length := by omega
    simp [addTaskSubmitMain, addTaskSubmitMin, submitStart, h, h2,
      warnAlertMain, warnToastMin, analyzingToast]

/-- Claim C2 counterexample: the removeChild step of the toast lifecycle
fires 3300ms after the call, because the hide timer is scheduled at 3000ms
from the call, concurrently with the 100ms show timer, so the total time
from creation to removal is not 100 + 3000 + 300 = 3400ms. -/
theorem toast_removal_time_neq_sum :
    traceTimeOf ToastAction.removeChild
      (toastTrace "🤖 AI is analyzing your task..." "info") = some 3300
  ∧ (3300 : Nat) ≠ 100 + 3000 + 300 :=
  ⟨rfl, by decide⟩

/-- Claim C2 (amended): for every call to showToast, the element becomes
visible 100ms after creation, is hidden 3000ms after creation, and is
removed from the body 300ms after being hidden; the total time from
creation to removal is deterministic and equal to 3000 + 300 = 3300ms,
and the element ends outside the body with the show class absent. -/
theorem toast_lifecycle_timing (message kind : String) :
    toastTrace message kind =
      [(100, ToastAction.addShow), (3000, ToastAction.removeShow),
       (3300, ToastAction.removeChild)]
  ∧ traceTimeOf ToastAction.addShow (toastTrace message kind) = some 100
  ∧ traceTimeOf ToastAction.removeShow (toastTrace message kind) = some 3000
  ∧ traceTimeOf ToastAction.removeChild (toastTrace message kind) = some (3000 + 300)
  ∧ (toastFinal message kind).inBody = false
  ∧ (toastFinal message kind).showClass = false :=
  ⟨rfl, rfl, rfl, rfl, rfl, rfl⟩

/-- Claim C3 counterexample: after the first intersection reveals the
element, the element is still observed, because neither script ever calls
unobserve; observation does not stop. -/
theorem reveal_does_not_unobserve :
    (revealEntry true initialAnimElem).observed = true
  ∧ revealEntry true initialAnimElem = revealedElem :=
  ⟨rfl, rfl⟩

/-- Claim C3 (amended): over any sequence of intersection callbacks, the
element is revealed exactly when some entry intersected, the revealed
state never reverts once set, and the element remains observed throughout
(the scripts never unobserve). -/
theorem reveal_at_most_once (es : List Bool) :
    revealRun es initialAnimElem =
      (if es.contains true then revealedElem else initialAnimElem)
  ∧ (revealRun es initialAnimElem).observed = true := by
  have key : revealRun es initialAnimElem =
      (if es.contains true then revealedElem else initialAnimElem) := by
    induction es with
    | nil => rfl
    | cons b es ih =>
      cases b with
      | true =>
        simp only [revealRun, List.foldl_cons]
        have h1 : revealEntry true initialAnimElem = revealedElem := rfl
        rw [h1]
        have h2 := revealRun_fixed es
        simp only [revealRun] at h2
        simp [h2, List.contains_cons]
      | false =>
        simp only [revealRun, List.foldl_cons] at ih ⊢
        have h1 : revealEntry false initialAnimElem = initialAnimElem := rfl
        rw [h1, ih]
        simp [List.contains_cons]
  refine ⟨key, ?_⟩
  rw [key]
  split <;> rfl

/-- Claim C4 counterexample: the minimal-script navbar scroll handler has
no presence check, so with the navbar element absent a scroll event raises
a TypeError instead of silently skipping the feature. -/
theorem navbar_missing_raises :
    navbarScrollHandlerMin none 60 =
      Except.error "TypeError: Cannot read properties of null (reading classList)" :=
  rfl

/-- Claim C4 (amended): the top-level lookups of the add-task form, the
weather card and the keyboard-shortcut task field are guarded by presence
checks that silently skip the feature, but the minimal-script navbar
scroll handler and the inner lookups of the submit handler (task input,
submit button) are unguarded and raise an error when the element is
absent. -/
theorem presence_guards (y : Nat) (v : String) :
    navbarScrollHandlerMin none y =
      Except.error "TypeError: Cannot read properties of null (reading classList)"
  ∧ (∀ cs, navbarScrollHandlerMin (some cs) y =
      Except.ok (if y > 50 then classAdd cs "scrolled" else classRemove cs "scrolled"))
  ∧ initFormListenerAttached false = false
  ∧ initFormListenerAttached true = true
  ∧ initCounterListenerAttached none = false
  ∧ (∀ s, initCounterListenerAttached (some s) = true)
  ∧ initLocationListenerAttached none = false
  ∧ initLocationListenerAttached (some ()) = true
  ∧ addTaskSubmitMainChecked none true =
      Except.error "TypeError: Cannot read properties of null (reading value)"
  ∧ addTaskSubmitMainChecked (some v) true = Except.ok (addTaskSubmitMain v)
  ∧ addTaskSubmitMainChecked (some v) false =
      (if (jsTrim v).length < 3 then Except.ok (addTaskSubmitMain v)
       else Except.error "TypeError: Cannot set properties of null (setting disabled)")
  ∧ initWeatherCardMin none = none
  ∧ initWeatherCardMain none = none
  ∧ keydownMain true false "k" false =
      { prevented := true, focusedTask := false, notifs := [] } := by
  refine ⟨rfl, fun cs => rfl, rfl, rfl, rfl, fun s => rfl, rfl, rfl, rfl, ?_, ?_, rfl, rfl,
    by decide⟩
  · by_cases h : (jsTrim v).length < 3 <;>
      simp [addTaskSubmitMainChecked, addTaskSubmitMain, h]
  · by_cases h : (jsTrim v).length < 3 <;>
      simp [addTaskSubmitMainChecked, addTaskSubmitMain, h]

/-- Claim C5: every click on a delete link prevents default navigation;
confirming emits the informational toast and schedules the original
navigation after a 500ms delay; declining emits nothing and schedules
nothing.  Both scripts behave identically apart from the toast text. -/
theorem delete_confirmation_flow (href : String) :
    (∀ c, (deleteClickMain c href).prevented = true
          ∧ (deleteClickMin c href).prevented = true)
  ∧ deleteClickMain true href =
      { prevented := true, notifs := [deleteToastMain], scheduledNav := some (500, href) }
  ∧ deleteClickMain false href =
      { prevented := true, notifs := [], scheduledNav := none }
  ∧ deleteClickMin true href =
      { prevented := true, notifs := [deleteToastMin], scheduledNav := some (500, href) }
  ∧ deleteClickMin false href =
      { prevented := true, notifs := [], scheduledNav := none } :=
  ⟨fun _ => ⟨rfl, rfl⟩, rfl, rfl, rfl, rfl⟩

/-- Claim C6 counterexample: with the task field absent, a Ctrl+K keydown
still calls preventDefault, so the shortcut is not a no-op as the claim
states. -/
theorem keydown_absent_field_not_noop :
    (keydownMain true false "k" false).prevented = true
  ∧ keydownMain true false "k" false ≠ noopKeyOutcome
  ∧ (keydownMin true false "k" false).prevented = true := by
  refine ⟨rfl, ?_, rfl⟩
  decide

/-- Claim C6 (amended): on every Ctrl/Cmd+K keydown, regardless of focus,
default handling is suppressed; when the task field is present it is
focused and the informational toast is emitted; when absent, nothing
further happens but default handling is still suppressed.  Other keys
leave the event untouched. -/
theorem keydown_shortcut_behavior (c m p : Bool) :
    (keydownMain c m "k" p).prevented = (c || m)
  ∧ (keydownMain c m "k" p).focusedTask = ((c || m) && p)
  ∧ (keydownMain c m "k" p).notifs =
      (if (c || m) && p then [quickAddToastMain] else [])
  ∧ keydownMain c m "q" p = noopKeyOutcome
  ∧ (keydownMin c m "k" p).prevented = (c || m)
  ∧ (keydownMin c m "k" p).focusedTask = ((c || m) && p)
  ∧ (keydownMin c m "k" p).notifs =
      (if (c || m) && p then [quickAddToastMin] else [])
  ∧ keydownMin c m "q" p = noopKeyOutcome := by
  cases c <;> cases m <;> cases p <;>
    simp [keydownMain, keydownMin, noopKeyOutcome]

/-- Claim C7: every showToast call appends one fresh element after the
existing children of the body: the body grows by exactly one, every
previously inserted element is unchanged in place, and the new element is
the last child — no de-duplication and no cap. -/
theorem showToast_frame_effect (body : List ToastElem) (message kind : String) :
    (showToastInsert body message kind).length = body.length + 1
  ∧ (showToastInsert body message kind).take body.length = body
  ∧ (showToastInsert body message kind).getLast? = some (mkToastElem message kind) := by
  refine ⟨by simp [showToastInsert], ?_, by simp [showToastInsert]⟩
  simp [showToastInsert, List.take_left]

/-- Claim C8: hover-enter applies the lateral offset transform (5px in
main.js, 8px in the minimal script) and hover-leave restores the
unoffset transform translateX(0), leaving all other style fields
unchanged. -/
theorem hover_enter_leave_roundtrip (s : TaskStyle) :
    (taskHoverLeaveMain (taskHoverEnterMain s)).transform = "translateX(0)"
  ∧ (taskHoverEnterMain s).transform = "translateX(5px)"
  ∧ taskHoverLeaveMain (taskHoverEnterMain s) = { s with transform := "translateX(0)" }
  ∧ (taskHoverLeaveMin (taskHoverEnterMin s)).transform = "translateX(0)"
  ∧ (taskHoverEnterMin s).transform = "translateX(8px)"
  ∧ taskHoverLeaveMin (taskHoverEnterMin s) = { s with transform := "translateX(0)" } :=
  ⟨rfl, rfl, rfl, rfl, rfl, rfl⟩

/-- Claim C9: the character counter uses the raw, untrimmed length: any
value of positive raw length gets the positive-feedback hint showing that
length (main.js text, and the minimal-script text with the success
color), and the empty value gets the default prompt.  The witness
instantiates this with a whitespace-only value whose trimmed length is
below the submission threshold. -/
theorem charCounter_raw_length (v : String) (h : 0 < v.length) :
    charCountHintMain v = goodHintMain v.length
  ∧ charCountHintMin v = (goodHintMin v.length, "var(--success)")
  ∧ charCountHintMain "" = defaultHintMain
  ∧ charCountHintMin "" = (defaultHintMin, "var(--text-secondary)") := by
  refine ⟨?_, ?_, rfl, rfl⟩ <;> simp [charCountHintMain, charCountHintMin, h]

/-- Witness for claim C9 at the whitespace-only value of two spaces: its
raw length 2 is positive, so the counter shows positive feedback, even
though its trimmed length is below the submission threshold 3. -/
theorem charCounter_raw_length_witness :
    0 < ("  " : String).length
  ∧ (jsTrim "  ").length < 3
  ∧ (charCountHintMain "  " = goodHintMain ("  " : String).length
     ∧ charCountHintMin "  " = (goodHintMin ("  " : String).length, "var(--success)")
     ∧ charCountHintMain "" = defaultHintMain
     ∧ charCountHintMin "" = (defaultHintMin, "var(--text-secondary)")) :=
  ⟨by decide, by decide, charCounter_raw_length "  " (by decide)⟩

/-- Claim C10: a click on a task-toggle link sets the enclosing task item
to opacity 0.5 with a transition, without preventing the default
navigation of the link, and no sequence of further task-item events in
main.js ever changes that opacity back. -/
theorem toggle_fades_permanently (s : TaskStyle) (evs : List TaskEvent) :
    (taskEventStepMain TaskEvent.toggleClick s).opacity = "0.5"
  ∧ (taskEventStepMain TaskEvent.toggleClick s).transition = "all 0.3s ease"
  ∧ taskEventPreventsMain TaskEvent.toggleClick = false
  ∧ (taskEventsRun evs (taskEventStepMain TaskEvent.toggleClick s)).opacity = "0.5" :=
  ⟨rfl, rfl, rfl, taskEventsRun_keeps_opacity evs _ rfl⟩

end Weatherly
